import Mathlib

/-!
Shallow embedding of the deno-infra-sense container-platform detector.

Sources embedded:
- src/detection/types.ts : the platform classification table (`PlatformType`,
  `Runtime`, the `ContainerPlatforms` constant).
- src/detection/mod.ts : the detection orchestrator (`ContainerPlatform` enum,
  `safeDetect`, `detectKubernetesPlatform`, `standaloneDetectors`,
  `detectContainerPlatform`, the cache and `resetCachedPlatform`).
- src/detection/utils.ts : the nine probe functions, modelled over an
  explicit environment record whose fallible fields are `Except`-valued.

The orchestrator is embedded over an abstract assignment of outcomes
(`ok true`, `ok false`, or a thrown error) to the probe functions, exactly
as the orchestrator's `safeDetect` wrapper sees them; the probe functions
themselves are embedded separately at the evidence level.  The process-wide
mutable cache becomes explicit state passing (`Option CacheEntry` in,
`Option CacheEntry` out), and the single `Date.now()` call at the top of
`detectContainerPlatform` becomes the `now : Int` argument.
-/

namespace Types

/-- The `PlatformType` enum of src/detection/types.ts. -/
inductive PlatformType
  | Kubernetes
  | Standalone
  | Host
deriving DecidableEq, Repr

/-- The `Runtime` enum of src/detection/types.ts. -/
inductive Runtime
  | Docker
  | Crio
  | Containerd
  | Podman
  | Rkt
  | LXC
  | SystemdNspawn
  | Other
  | None
deriving DecidableEq, Repr

/-- The `ContainerPlatform` interface of src/detection/types.ts. -/
structure ContainerPlatform where
  type : PlatformType
  runtime : Runtime
  displayName : String
deriving DecidableEq, Repr

/-- The `ContainerPlatforms` constant of src/detection/types.ts, as an
association list from key name to record. -/
def ContainerPlatforms : List (String × ContainerPlatform) := [
  ("KubernetesCriO", ⟨.Kubernetes, .Crio, "Kubernetes (CRI-O)"⟩),
  ("KubernetesDocker", ⟨.Kubernetes, .Docker, "Kubernetes (Docker)"⟩),
  ("KubernetesOther", ⟨.Kubernetes, .Other, "Kubernetes (other)"⟩),
  ("Docker", ⟨.Standalone, .Docker, "Docker"⟩),
  ("Podman", ⟨.Standalone, .Podman, "Podman"⟩),
  ("Crio", ⟨.Standalone, .Crio, "CRI-O"⟩),
  ("DockerCgroup", ⟨.Standalone, .Docker, "Docker (via cgroup)"⟩),
  ("Containerd", ⟨.Standalone, .Containerd, "containerd"⟩),
  ("Rkt", ⟨.Standalone, .Rkt, "rkt"⟩),
  ("LXCLXD", ⟨.Standalone, .LXC, "LXC/LXD"⟩),
  ("SystemdNspawn", ⟨.Standalone, .SystemdNspawn, "systemd-nspawn"⟩),
  ("Host", ⟨.Host, .None, "Host (no recognized container)"⟩)
]

end Types

/-- The `ContainerPlatform` enum of src/detection/mod.ts (the value the
orchestrator returns).  Its string values are recorded by
`ContainerPlatform.value`; the member the source spells in all capitals is
rendered `CriO` here. -/
inductive ContainerPlatform
  | KubernetesCriO
  | KubernetesDocker
  | KubernetesOther
  | Docker
  | Podman
  | CriO
  | DockerCgroup
  | Containerd
  | Rkt
  | LXCLXD
  | SystemdNspawn
  | Host
deriving DecidableEq, Repr

/-- The string value each member of the mod.ts enum carries. -/
def ContainerPlatform.value : ContainerPlatform → String
  | .KubernetesCriO => "Kubernetes (CRI-O)"
  | .KubernetesDocker => "Kubernetes (Docker)"
  | .KubernetesOther => "Kubernetes (other)"
  | .Docker => "Docker"
  | .Podman => "Podman"
  | .CriO => "CRI-O"
  | .DockerCgroup => "Docker (via cgroup)"
  | .Containerd => "containerd"
  | .Rkt => "rkt"
  | .LXCLXD => "LXC/LXD"
  | .SystemdNspawn => "systemd-nspawn"
  | .Host => "Host (no recognized container)"

/-- The classification record of the types.ts table whose `displayName`
equals the enum member's string value (the two files list the same twelve
platforms; the fallback branch of the lookup is unreachable). -/
def classificationOf (c : ContainerPlatform) : Types.ContainerPlatform :=
  match Types.ContainerPlatforms.find? (fun e => e.2.displayName == c.value) with
  | some e => e.2
  | none => ⟨Types.PlatformType.Host, Types.Runtime.None, c.value⟩

/-- The distinct `(type, runtime)` pairs occurring in the types.ts table. -/
def validPairs : List (Types.PlatformType × Types.Runtime) :=
  (Types.ContainerPlatforms.map (fun e => (e.2.type, e.2.runtime))).dedup

/-- A classification is valid when its `(type, runtime)` pair is in the
table, runtime `None` occurs only for type `Host`, and runtime `Other`
occurs only for type `Kubernetes`. -/
def validClassification (c : ContainerPlatform) : Bool :=
  let r := classificationOf c
  decide ((r.type, r.runtime) ∈ validPairs)
    && ((r.runtime != Types.Runtime.None) || (r.type == Types.PlatformType.Host))
    && ((r.runtime != Types.Runtime.Other) || (r.type == Types.PlatformType.Kubernetes))

/-- Outcome of invoking one probe function, as the orchestrator's
`safeDetect` wrapper observes it: a resolved boolean or a thrown error. -/
inductive ProbeOutcome
  | ok (b : Bool)
  | thrown (msg : String)
deriving DecidableEq, Repr

/-- One outcome per probe function imported by src/detection/mod.ts. -/
structure ProbeOutcomes where
  kubernetes : ProbeOutcome
  dockerEnv : ProbeOutcome
  podman : ProbeOutcome
  crio : ProbeOutcome
  dockerCgroup : ProbeOutcome
  containerd : ProbeOutcome
  rkt : ProbeOutcome
  lxc : ProbeOutcome
  systemdNspawn : ProbeOutcome
deriving DecidableEq, Repr

/-- Names of the probe functions, used to record which probes a call to
the orchestrator actually invoked. -/
inductive ProbeName
  | kubernetes
  | dockerEnv
  | podman
  | crio
  | dockerCgroup
  | containerd
  | rkt
  | lxc
  | systemdNspawn
deriving DecidableEq, Repr

/-- Look up the outcome assigned to a named probe. -/
def probeOutcome (o : ProbeOutcomes) : ProbeName → ProbeOutcome
  | .kubernetes => o.kubernetes
  | .dockerEnv => o.dockerEnv
  | .podman => o.podman
  | .crio => o.crio
  | .dockerCgroup => o.dockerCgroup
  | .containerd => o.containerd
  | .rkt => o.rkt
  | .lxc => o.lxc
  | .systemdNspawn => o.systemdNspawn

/-- `safeDetect` of src/detection/mod.ts: a thrown error is caught, logged,
and treated as a non-detection (`false`). -/
def safeDetect : ProbeOutcome → Bool
  | .ok b => b
  | .thrown _ => false

/-- `detectKubernetesPlatform` of src/detection/mod.ts, paired with the
list of probes it invokes: CRI-O first, then Docker-via-cgroup, else the
`KubernetesOther` fallback. -/
def detectKubernetesPlatform (o : ProbeOutcomes) :
    ContainerPlatform × List ProbeName :=
  if safeDetect o.crio then (.KubernetesCriO, [.crio])
  else if safeDetect o.dockerCgroup then (.KubernetesDocker, [.crio, .dockerCgroup])
  else (.KubernetesOther, [.crio, .dockerCgroup])

/-- One entry of the `standaloneDetectors` array of src/detection/mod.ts:
a platform label and the probe function it runs. -/
structure Detector where
  label : ContainerPlatform
  fn : ProbeName
deriving DecidableEq, Repr

/-- The `standaloneDetectors` array of src/detection/mod.ts, in source
order. -/
def standaloneDetectors : List Detector := [
  ⟨.Docker, .dockerEnv⟩,
  ⟨.Podman, .podman⟩,
  ⟨.CriO, .crio⟩,
  ⟨.DockerCgroup, .dockerCgroup⟩,
  ⟨.Containerd, .containerd⟩,
  ⟨.Rkt, .rkt⟩,
  ⟨.LXCLXD, .lxc⟩,
  ⟨.SystemdNspawn, .systemdNspawn⟩
]

/-- The `for`-loop over `standaloneDetectors` in `detectContainerPlatform`:
first detector whose wrapped probe resolves true wins; if none does the
result is `Host`.  Also returns the probes invoked, in order. -/
def runStandalone (o : ProbeOutcomes) :
    List Detector → ContainerPlatform × List ProbeName
  | [] => (.Host, [])
  | d :: rest =>
    if safeDetect (probeOutcome o d.fn) then (d.label, [d.fn])
    else
      let r := runStandalone o rest
      (r.1, d.fn :: r.2)

/-- The `_cachedResult` record of src/detection/mod.ts. -/
structure CacheEntry where
  platform : ContainerPlatform
  timestamp : Int
deriving DecidableEq, Repr

/-- `CACHE_TTL_MS` of src/detection/mod.ts. -/
def CACHE_TTL_MS : Int := 30000

/-- `resetCachedPlatform` of src/detection/mod.ts: sets the cache slot to
null. -/
def resetCachedPlatform : Option CacheEntry → Option CacheEntry :=
  fun _ => none

/-- Result of one call to the orchestrator: the returned platform, the
cache slot after the call, and the probes invoked during the call. -/
structure DetectResult where
  platform : ContainerPlatform
  cache : Option CacheEntry
  probesRun : List ProbeName
deriving DecidableEq, Repr

/-- The cache-hit condition of src/detection/mod.ts:
`!options?.forceRefresh && _cachedResult !== null &&
now - _cachedResult.timestamp <= CACHE_TTL_MS`. -/
def cacheValid (forceRefresh : Bool) (now : Int)
    (cached : Option CacheEntry) : Bool :=
  !forceRefresh && (match cached with
    | some e => decide (now - e.timestamp ≤ CACHE_TTL_MS)
    | none => false)

/-- The platform stored in the cache slot (only read under `cacheValid`,
which rules the `none` branch out). -/
def cachedPlatform : Option CacheEntry → ContainerPlatform
  | some e => e.platform
  | none => .Host

/-- The cache-miss path of `detectContainerPlatform`: the Kubernetes gate,
then either the Kubernetes disambiguation or the standalone sequence, with
the result written to the cache slot stamped with the `now` captured at the
start of the call. -/
def detectPass (o : ProbeOutcomes) (now : Int) : DetectResult :=
  if safeDetect o.kubernetes then
    let pk := detectKubernetesPlatform o
    { platform := pk.1, cache := some ⟨pk.1, now⟩,
      probesRun := .kubernetes :: pk.2 }
  else
    let ps := runStandalone o standaloneDetectors
    { platform := ps.1, cache := some ⟨ps.1, now⟩,
      probesRun := .kubernetes :: ps.2 }

/-- `detectContainerPlatform` of src/detection/mod.ts.  `now` is the value
of the single `Date.now()` call at the top of the function; the cache slot
is passed and returned explicitly. -/
def detectContainerPlatform (o : ProbeOutcomes) (forceRefresh : Bool)
    (now : Int) (cached : Option CacheEntry) : DetectResult :=
  if cacheValid forceRefresh now cached then
    { platform := cachedPlatform cached, cache := cached, probesRun := [] }
  else detectPass o now

/-- List-of-characters prefix test used to implement the JavaScript string
`includes` method. -/
def listStartsWith : List Char → List Char → Bool
  | _, [] => true
  | [], _ :: _ => false
  | a :: as, b :: bs => a == b && listStartsWith as bs

/-- List-of-characters substring test used to implement the JavaScript
string `includes` method. -/
def listHasSubstr : List Char → List Char → Bool
  | [], needle => needle.isEmpty
  | a :: rest, needle =>
    listStartsWith (a :: rest) needle || listHasSubstr rest needle

/-- The JavaScript `haystack.includes(needle)` test on strings. -/
def strIncludes (haystack needle : String) : Bool :=
  listHasSubstr haystack.data needle.data

/-- The JavaScript `toLowerCase()` method, modelled character by character
(the signals the probes compare against are ASCII). -/
def jsToLower (s : String) : String :=
  ⟨s.data.map Char.toLower⟩

deriving instance DecidableEq for Except

/-- The evidence available to the probe functions of src/detection/utils.ts.
Each fallible operation (Deno.env.get, the `exists` check, Deno.readTextFile,
Deno.resolveDns) is an `Except`-valued field: `error` models the operation
throwing (for example a Deno permission error). -/
structure Env where
  kubernetesServiceHost : Except String (Option String)
  containerVar : Except String (Option String)
  serviceAccountExists : Except String Bool
  dnsKubernetes : Except String (List String)
  dockerenvExists : Except String Bool
  containerenvExists : Except String Bool
  containerenvText : Except String String
  nspawnMarkerExists : Except String Bool
deriving DecidableEq, Repr

/-- `detectKubernetes` of src/detection/utils.ts.  The env-var read on its
first line is outside every try/catch, so its error propagates; the
service-account existence check and the DNS lookup are each wrapped in a
try/catch that falls through to the next check. -/
def detectKubernetes (e : Env) : Except String Bool :=
  match e.kubernetesServiceHost with
  | .error m => .error m
  | .ok svcHost =>
    if (match svcHost with
        | some s => decide (s.length > 0)
        | none => false) then .ok true
    else if (match e.serviceAccountExists with
        | .ok b => b
        | .error _ => false) then .ok true
    else .ok (match e.dnsKubernetes with
        | .ok addrs => decide (addrs.length > 0)
        | .error _ => false)

/-- `detectDockerEnv` of src/detection/utils.ts: the `/.dockerenv`
existence check, with every error caught and treated as false. -/
def detectDockerEnv (e : Env) : Except String Bool :=
  .ok (match e.dockerenvExists with
    | .ok b => b
    | .error _ => false)

/-- `detectDockerCgroup` of src/detection/utils.ts: exact (case-sensitive)
comparison of the `container` env var with `"docker"`; the env read is
unguarded, so its error propagates. -/
def detectDockerCgroup (e : Env) : Except String Bool :=
  match e.containerVar with
  | .error m => .error m
  | .ok cont => .ok (cont == some "docker")

/-- `detectPodman` of src/detection/utils.ts: case-insensitive env-var
match (guarded by JavaScript truthiness of the variable), else a
case-insensitive substring search in `/run/.containerenv`, with the file
checks wrapped in a try/catch that resolves to false. -/
def detectPodman (e : Env) : Except String Bool :=
  match e.containerVar with
  | .error m => .error m
  | .ok contEnv =>
    if (match contEnv with
        | some s => (s != "") && (jsToLower s == "podman")
        | none => false) then .ok true
    else .ok (match e.containerenvExists with
      | .ok true =>
        (match e.containerenvText with
         | .ok contents => strIncludes (jsToLower contents) "podman"
         | .error _ => false)
      | .ok false => false
      | .error _ => false)

/-- `detectCrio` of src/detection/utils.ts: same shape as `detectPodman`
with the `"crio"` signal. -/
def detectCrio (e : Env) : Except String Bool :=
  match e.containerVar with
  | .error m => .error m
  | .ok contEnv =>
    if (match contEnv with
        | some s => (s != "") && (jsToLower s == "crio")
        | none => false) then .ok true
    else .ok (match e.containerenvExists with
      | .ok true =>
        (match e.containerenvText with
         | .ok contents => strIncludes (jsToLower contents) "crio"
         | .error _ => false)
      | .ok false => false
      | .error _ => false)

/-- `detectContainerd` of src/detection/utils.ts: exact (case-sensitive)
comparison of the `container` env var with `"containerd"`. -/
def detectContainerd (e : Env) : Except String Bool :=
  match e.containerVar with
  | .error m => .error m
  | .ok cont => .ok (cont == some "containerd")

/-- `detectRkt` of src/detection/utils.ts: exact (case-sensitive)
comparison of the `container` env var with `"rkt"`. -/
def detectRkt (e : Env) : Except String Bool :=
  match e.containerVar with
  | .error m => .error m
  | .ok cont => .ok (cont == some "rkt")

/-- `detectLXC` of src/detection/utils.ts: exact (case-sensitive)
comparison of the `container` env var with `"lxc"`. -/
def detectLXC (e : Env) : Except String Bool :=
  match e.containerVar with
  | .error m => .error m
  | .ok cont => .ok (cont == some "lxc")

/-- `detectSystemdNspawn` of src/detection/utils.ts: case-insensitive
env-var match, else the nspawn marker-file existence check wrapped in a
try/catch that resolves to false. -/
def detectSystemdNspawn (e : Env) : Except String Bool :=
  match e.containerVar with
  | .error m => .error m
  | .ok contEnv =>
    if (match contEnv with
        | some s => (s != "") && (jsToLower s == "systemd-nspawn")
        | none => false) then .ok true
    else .ok (match e.nspawnMarkerExists with
      | .ok b => b
      | .error _ => false)

/-- Convert a probe invocation result to the outcome the orchestrator's
`safeDetect` wrapper observes. -/
def toOutcome : Except String Bool → ProbeOutcome
  | .ok b => .ok b
  | .error m => .thrown m

/-- The probe-outcome assignment produced by running every probe function
of src/detection/utils.ts against one evidence environment; this is the
bridge between the evidence-level and the orchestrator-level embeddings. -/
def outcomesOfEnv (e : Env) : ProbeOutcomes where
  kubernetes := toOutcome (detectKubernetes e)
  dockerEnv := toOutcome (detectDockerEnv e)
  podman := toOutcome (detectPodman e)
  crio := toOutcome (detectCrio e)
  dockerCgroup := toOutcome (detectDockerCgroup e)
  containerd := toOutcome (detectContainerd e)
  rkt := toOutcome (detectRkt e)
  lxc := toOutcome (detectLXC e)
  systemdNspawn := toOutcome (detectSystemdNspawn e)

/-- An evidence environment with no signals and no failures. -/
def envBase : Env where
  kubernetesServiceHost := .ok none
  containerVar := .ok none
  serviceAccountExists := .ok false
  dnsKubernetes := .ok []
  dockerenvExists := .ok false
  containerenvExists := .ok false
  containerenvText := .ok ""
  nspawnMarkerExists := .ok false

/-- Replace the outcome of one named probe. -/
def setOutcome (o : ProbeOutcomes) (p : ProbeName) (v : ProbeOutcome) :
    ProbeOutcomes :=
  match p with
  | .kubernetes => { o with kubernetes := v }
  | .dockerEnv => { o with dockerEnv := v }
  | .podman => { o with podman := v }
  | .crio => { o with crio := v }
  | .dockerCgroup => { o with dockerCgroup := v }
  | .containerd => { o with containerd := v }
  | .rkt => { o with rkt := v }
  | .lxc => { o with lxc := v }
  | .systemdNspawn => { o with systemdNspawn := v }

/-- The outcome assignment in which every probe throws. -/
def allThrown (msg : String) : ProbeOutcomes :=
  ⟨.thrown msg, .thrown msg, .thrown msg, .thrown msg, .thrown msg,
   .thrown msg, .thrown msg, .thrown msg, .thrown msg⟩

/-- The outcome assignment in which every probe resolves false. -/
def oAllFalse : ProbeOutcomes :=
  ⟨.ok false, .ok false, .ok false, .ok false, .ok false,
   .ok false, .ok false, .ok false, .ok false⟩

/-- Set the `container` environment variable of an evidence environment. -/
def withContainerVar (e : Env) (s : String) : Env :=
  { e with containerVar := .ok (some s) }

/-- Set the text read from `/run/.containerenv` (and make the file exist). -/
def withContainerenvText (e : Env) (t : String) : Env :=
  { e with containerenvExists := .ok true, containerenvText := .ok t }

/-- Make every guarded evidence operation (file checks, file read, DNS)
throw, leaving the environment-variable reads untouched. -/
def withEvidenceErrors (e : Env) (m : String) : Env :=
  { e with
    serviceAccountExists := .error m
    dnsKubernetes := .error m
    dockerenvExists := .error m
    containerenvExists := .error m
    containerenvText := .error m
    nspawnMarkerExists := .error m }

/-- An evidence environment in which both environment-variable reads throw
(for example because the Deno env permission is denied) while every other
operation succeeds. -/
def envEnvDenied : Env :=
  { envBase with
    kubernetesServiceHost := .error "NotCapable: env access to KUBERNETES_SERVICE_HOST"
    containerVar := .error "NotCapable: env access to container" }

/-- The cache-miss path always stores the platform it returns, stamped
with the time captured at the start of the call. -/
theorem detectPass_cache (o : ProbeOutcomes) (now : Int) :
    (detectPass o now).cache = some ⟨(detectPass o now).platform, now⟩ := by
  unfold detectPass
  split <;> rfl

/-- The standalone loop only observes the wrapped boolean of each probe. -/
theorem runStandalone_congr (o1 o2 : ProbeOutcomes)
    (h : ∀ q, safeDetect (probeOutcome o1 q) = safeDetect (probeOutcome o2 q)) :
    ∀ l, runStandalone o1 l = runStandalone o2 l := by
  intro l
  induction l with
  | nil => rfl
  | cons d rest ih =>
    unfold runStandalone
    rw [h d.fn, ih]

/-- The orchestrator only observes the wrapped boolean of each probe. -/
theorem detect_congr (o1 o2 : ProbeOutcomes)
    (h : ∀ q, safeDetect (probeOutcome o1 q) = safeDetect (probeOutcome o2 q))
    (fr : Bool) (now : Int) (s : Option CacheEntry) :
    detectContainerPlatform o1 fr now s = detectContainerPlatform o2 fr now s := by
  unfold detectContainerPlatform detectPass detectKubernetesPlatform
  rw [show safeDetect o1.kubernetes = safeDetect o2.kubernetes from h .kubernetes,
    show safeDetect o1.crio = safeDetect o2.crio from h .crio,
    show safeDetect o1.dockerCgroup = safeDetect o2.dockerCgroup from h .dockerCgroup,
    runStandalone_congr o1 o2 h standaloneDetectors]

/-- Every member of the mod.ts enum maps to a valid classification. -/
theorem validClassification_all (c : ContainerPlatform) :
    validClassification c = true := by
  cases c <;> decide

/-- C1: for every assignment of outcomes to the probes (and every cache
state, flag and clock value), `detectContainerPlatform` returns a
classification whose `(category, runtime)` pair is one of the 11 valid
combinations of the platform table; runtime `None` occurs only with
category `Host` and runtime `Other` only with category `Kubernetes`, and
the table yields exactly 11 distinct pairs. -/
theorem detect_pair_always_valid (o : ProbeOutcomes) (fr : Bool) (now : Int)
    (s : Option CacheEntry) :
    validClassification (detectContainerPlatform o fr now s).platform = true
      ∧ validPairs.length = 11 := by
  exact ⟨validClassification_all _, by decide⟩

/-- C10: on a cache hit the cache slot is returned entirely unchanged (the
timestamp is not refreshed, so the validity window never slides); on a
miss the slot is overwritten with the returned platform stamped with `now`,
the single clock value captured at the start of the call before any probe
ran. -/
theorem cache_write_frame (o : ProbeOutcomes) (fr : Bool) (now : Int)
    (s : Option CacheEntry) :
    (detectContainerPlatform o fr now s).cache =
      (if cacheValid fr now s then s
       else some ⟨(detectContainerPlatform o fr now s).platform, now⟩) := by
  by_cases h : cacheValid fr now s
  · simp [detectContainerPlatform, h]
  · simp [detectContainerPlatform, h, detectPass_cache]

/-- C9: `resetCachedPlatform` is idempotent and safe on an empty slot, and
a `detectContainerPlatform` call right after a reset performs the full
detection pass (probes run) even without `forceRefresh` and regardless of
how fresh the previous entry was. -/
theorem reset_cache_reruns (s : Option CacheEntry) (o : ProbeOutcomes)
    (now : Int) :
    resetCachedPlatform (resetCachedPlatform s) = resetCachedPlatform s
      ∧ resetCachedPlatform none = none
      ∧ detectContainerPlatform o false now (resetCachedPlatform s) =
          detectPass o now
      ∧ 1 ≤ (detectContainerPlatform o false now
          (resetCachedPlatform s)).probesRun.length := by
  refine ⟨rfl, rfl, ?_, ?_⟩
  · simp [resetCachedPlatform, detectContainerPlatform, cacheValid]
  · simp only [resetCachedPlatform, detectContainerPlatform, cacheValid]
    simp [detectPass]
    split <;> simp

/-- C4: for every probe and every thrown error, `detectContainerPlatform`
behaves exactly as if that probe had returned false (same result, same
cache state, same probes invoked), and when every probe throws the
cache-miss pass still returns the `Host` classification, so the
orchestrator never propagates a probe error. -/
theorem probe_error_isolated (o : ProbeOutcomes) (p : ProbeName)
    (msg : String) (fr : Bool) (now : Int) (s : Option CacheEntry) :
    detectContainerPlatform (setOutcome o p (.thrown msg)) fr now s =
        detectContainerPlatform (setOutcome o p (.ok false)) fr now s
      ∧ (detectPass (allThrown msg) now).platform = .Host := by
  constructor
  · apply detect_congr
    intro q
    cases p <;> cases q <;> rfl
  · simp [detectPass, allThrown, safeDetect, runStandalone,
      standaloneDetectors, probeOutcome]

/-- Unfolding of the standalone loop on the source's detector array:
first match wins, and exactly the probes up to and including the first
match are invoked (all eight when none matches). -/
theorem runStandalone_spec (o : ProbeOutcomes) :
    runStandalone o standaloneDetectors =
      (if safeDetect o.dockerEnv then (ContainerPlatform.Docker, [ProbeName.dockerEnv])
       else if safeDetect o.podman then (.Podman, [.dockerEnv, .podman])
       else if safeDetect o.crio then (.CriO, [.dockerEnv, .podman, .crio])
       else if safeDetect o.dockerCgroup then
         (.DockerCgroup, [.dockerEnv, .podman, .crio, .dockerCgroup])
       else if safeDetect o.containerd then
         (.Containerd, [.dockerEnv, .podman, .crio, .dockerCgroup, .containerd])
       else if safeDetect o.rkt then
         (.Rkt, [.dockerEnv, .podman, .crio, .dockerCgroup, .containerd, .rkt])
       else if safeDetect o.lxc then
         (.LXCLXD, [.dockerEnv, .podman, .crio, .dockerCgroup, .containerd,
           .rkt, .lxc])
       else if safeDetect o.systemdNspawn then
         (.SystemdNspawn, [.dockerEnv, .podman, .crio, .dockerCgroup,
           .containerd, .rkt, .lxc, .systemdNspawn])
       else (.Host, [.dockerEnv, .podman, .crio, .dockerCgroup, .containerd,
           .rkt, .lxc, .systemdNspawn])) := by
  simp only [standaloneDetectors, runStandalone, probeOutcome]
  generalize safeDetect o.dockerEnv = b1
  generalize safeDetect o.podman = b2
  generalize safeDetect o.crio = b3
  generalize safeDetect o.dockerCgroup = b4
  generalize safeDetect o.containerd = b5
  generalize safeDetect o.rkt = b6
  generalize safeDetect o.lxc = b7
  generalize safeDetect o.systemdNspawn = b8
  revert b1 b2 b3 b4 b5 b6 b7 b8
  decide

/-- C2: when the Kubernetes probe resolves false and the cache does not
hit, the standalone detectors are evaluated in the source order Docker
(marker file), Podman, CRI-O, Docker (cgroup), containerd, rkt, LXC/LXD,
systemd-nspawn; the first probe that resolves true determines the result
and no later probe is invoked, and when all eight resolve false the result
is the `Host` classification (whose table pair is `(Host, None)`). -/
theorem standalone_priority_order (o : ProbeOutcomes) (fr : Bool) (now : Int)
    (s : Option CacheEntry)
    (hk : safeDetect o.kubernetes = false)
    (hmiss : cacheValid fr now s = false) :
    standaloneDetectors.map Detector.label =
      [ContainerPlatform.Docker, .Podman, .CriO, .DockerCgroup, .Containerd,
       .Rkt, .LXCLXD, .SystemdNspawn]
      ∧ (detectContainerPlatform o fr now s).platform =
        (if safeDetect o.dockerEnv then ContainerPlatform.Docker
         else if safeDetect o.podman then .Podman
         else if safeDetect o.crio then .CriO
         else if safeDetect o.dockerCgroup then .DockerCgroup
         else if safeDetect o.containerd then .Containerd
         else if safeDetect o.rkt then .Rkt
         else if safeDetect o.lxc then .LXCLXD
         else if safeDetect o.systemdNspawn then .SystemdNspawn
         else .Host)
      ∧ (detectContainerPlatform o fr now s).probesRun =
        ProbeName.kubernetes ::
        (if safeDetect o.dockerEnv then [ProbeName.dockerEnv]
         else if safeDetect o.podman then [.dockerEnv, .podman]
         else if safeDetect o.crio then [.dockerEnv, .podman, .crio]
         else if safeDetect o.dockerCgroup then
           [.dockerEnv, .podman, .crio, .dockerCgroup]
         else if safeDetect o.containerd then
           [.dockerEnv, .podman, .crio, .dockerCgroup, .containerd]
         else if safeDetect o.rkt then
           [.dockerEnv, .podman, .crio, .dockerCgroup, .containerd, .rkt]
         else if safeDetect o.lxc then
           [.dockerEnv, .podman, .crio, .dockerCgroup, .containerd, .rkt, .lxc]
         else [.dockerEnv, .podman, .crio, .dockerCgroup, .containerd, .rkt,
           .lxc, .systemdNspawn])
      ∧ classificationOf ContainerPlatform.Host =
          ⟨Types.PlatformType.Host, Types.Runtime.None,
            "Host (no recognized container)"⟩ := by
  have hd : detectContainerPlatform o fr now s = detectPass o now := by
    simp [detectContainerPlatform, hmiss]
  have hp : detectPass o now =
      { platform := (runStandalone o standaloneDetectors).1,
        cache := some ⟨(runStandalone o standaloneDetectors).1, now⟩,
        probesRun := .kubernetes :: (runStandalone o standaloneDetectors).2 } := by
    simp [detectPass, hk]
  refine ⟨rfl, ?_, ?_, by decide⟩
  · rw [hd, hp, runStandalone_spec]
    repeat' split
    all_goals rfl
  · rw [hd, hp, runStandalone_spec]
    repeat' split
    all_goals rfl

/-- Witness for C2: Kubernetes false, Docker-marker false, Podman true and
CRI-O also true; the first match (Podman) wins and the later probes are
not invoked. -/
theorem standalone_priority_order_witness :
    safeDetect (ProbeOutcome.ok false) = false
      ∧ cacheValid false 0 none = false
      ∧ (detectContainerPlatform
          ⟨.ok false, .ok false, .ok true, .ok true, .ok false, .ok false,
            .ok false, .ok false, .ok false⟩ false 0 none).platform =
          ContainerPlatform.Podman
      ∧ (detectContainerPlatform
          ⟨.ok false, .ok false, .ok true, .ok true, .ok false, .ok false,
            .ok false, .ok false, .ok false⟩ false 0 none).probesRun =
          [ProbeName.kubernetes, ProbeName.dockerEnv, ProbeName.podman] := by
  have h := standalone_priority_order
    ⟨.ok false, .ok false, .ok true, .ok true, .ok false, .ok false,
      .ok false, .ok false, .ok false⟩ false 0 none rfl rfl
  exact ⟨rfl, rfl, h.2.1.trans (by decide), h.2.2.1.trans (by decide)⟩

/-- C3: when the Kubernetes probe resolves true and the cache does not
hit, the CRI-O probe is evaluated first; if it resolves true the result is
`KubernetesCriO` and the Docker-cgroup probe is not invoked, otherwise the
Docker-cgroup probe decides between `KubernetesDocker` and the
`KubernetesOther` fallback. -/
theorem kubernetes_disambiguation (o : ProbeOutcomes) (fr : Bool) (now : Int)
    (s : Option CacheEntry)
    (hk : safeDetect o.kubernetes = true)
    (hmiss : cacheValid fr now s = false) :
    (detectContainerPlatform o fr now s).platform =
      (if safeDetect o.crio then ContainerPlatform.KubernetesCriO
       else if safeDetect o.dockerCgroup then ContainerPlatform.KubernetesDocker
       else ContainerPlatform.KubernetesOther)
      ∧ (detectContainerPlatform o fr now s).probesRun =
        ProbeName.kubernetes ::
        (if safeDetect o.crio then [ProbeName.crio]
         else [ProbeName.crio, ProbeName.dockerCgroup]) := by
  have hd : detectContainerPlatform o fr now s = detectPass o now := by
    simp [detectContainerPlatform, hmiss]
  have hp : detectPass o now =
      { platform := (detectKubernetesPlatform o).1,
        cache := some ⟨(detectKubernetesPlatform o).1, now⟩,
        probesRun := .kubernetes :: (detectKubernetesPlatform o).2 } := by
    simp [detectPass, hk]
  constructor
  · rw [hd, hp]
    simp only [detectKubernetesPlatform]
    repeat' split
    all_goals rfl
  · rw [hd, hp]
    simp only [detectKubernetesPlatform]
    repeat' split
    all_goals rfl

/-- Witness for C3: Kubernetes true and CRI-O true while Docker-cgroup is
also true; CRI-O has priority and the Docker-cgroup probe is not invoked. -/
theorem kubernetes_disambiguation_witness :
    safeDetect (ProbeOutcome.ok true) = true
      ∧ cacheValid false 0 none = false
      ∧ (detectContainerPlatform
          ⟨.ok true, .ok false, .ok false, .ok true, .ok true, .ok false,
            .ok false, .ok false, .ok false⟩ false 0 none).platform =
          ContainerPlatform.KubernetesCriO
      ∧ (detectContainerPlatform
          ⟨.ok true, .ok false, .ok false, .ok true, .ok true, .ok false,
            .ok false, .ok false, .ok false⟩ false 0 none).probesRun =
          [ProbeName.kubernetes, ProbeName.crio] := by
  have h := kubernetes_disambiguation
    ⟨.ok true, .ok false, .ok false, .ok true, .ok true, .ok false,
      .ok false, .ok false, .ok false⟩ false 0 none rfl rfl
  exact ⟨rfl, rfl, h.1.trans (by decide), h.2.trans (by decide)⟩

/-- The platform stored in the cache slot after a call is the platform the
call returned. -/
theorem detect_cache_platform (o : ProbeOutcomes) (fr : Bool) (now : Int)
    (s : Option CacheEntry) (e : CacheEntry)
    (h : (detectContainerPlatform o fr now s).cache = some e) :
    e.platform = (detectContainerPlatform o fr now s).platform := by
  by_cases hv : cacheValid fr now s
  · simp only [detectContainerPlatform, hv, if_true] at h ⊢
    rw [h]
    rfl
  · simp [detectContainerPlatform, hv] at h ⊢
    rw [detectPass_cache] at h
    rw [Option.some_inj] at h
    rw [← h]

/-- C5: a second `detectContainerPlatform` call without `forceRefresh`,
made while the cache entry left by the first call is at most 30 seconds
old, invokes no probe, returns the very classification the first call
returned, and leaves the cache entry unchanged — whatever outcomes the
probes would have produced on the second call. -/
theorem cache_hit_no_probes (o1 o2 : ProbeOutcomes) (fr1 : Bool)
    (now1 now2 : Int) (s0 : Option CacheEntry) (e : CacheEntry)
    (h1 : (detectContainerPlatform o1 fr1 now1 s0).cache = some e)
    (h2 : now2 - e.timestamp ≤ CACHE_TTL_MS) :
    (detectContainerPlatform o2 false now2
        (detectContainerPlatform o1 fr1 now1 s0).cache).platform =
      (detectContainerPlatform o1 fr1 now1 s0).platform
      ∧ (detectContainerPlatform o2 false now2
          (detectContainerPlatform o1 fr1 now1 s0).cache).probesRun = []
      ∧ (detectContainerPlatform o2 false now2
          (detectContainerPlatform o1 fr1 now1 s0).cache).cache =
        (detectContainerPlatform o1 fr1 now1 s0).cache := by
  have hcp : e.platform = (detectContainerPlatform o1 fr1 now1 s0).platform :=
    detect_cache_platform o1 fr1 now1 s0 e h1
  have hv2 : cacheValid false now2 (some e) = true := by
    simp [cacheValid, h2]
  rw [h1]
  refine ⟨?_, ?_, ?_⟩ <;>
    simp [detectContainerPlatform, hv2, cachedPlatform, hcp]

/-- Witness for C5: a first call on all-false outcomes caches `Host` at
time 0; a second call 10 seconds later returns `Host` from the cache with
no probe invoked. -/
theorem cache_hit_no_probes_witness :
    (detectContainerPlatform oAllFalse false 0 none).cache =
        some ⟨ContainerPlatform.Host, 0⟩
      ∧ ((10000 : Int) - (0 : Int) ≤ CACHE_TTL_MS)
      ∧ (detectContainerPlatform oAllFalse false 10000
          (detectContainerPlatform oAllFalse false 0 none).cache).platform =
        ContainerPlatform.Host
      ∧ (detectContainerPlatform oAllFalse false 10000
          (detectContainerPlatform oAllFalse false 0 none).cache).probesRun =
        [] := by
  have h := cache_hit_no_probes oAllFalse oAllFalse false 0 10000 none
    ⟨ContainerPlatform.Host, 0⟩ (by decide) (by decide)
  exact ⟨by decide, by decide, h.1.trans (by decide), h.2.1⟩

/-- The JavaScript truthiness guard on the `container` variable is
redundant once the lowercased comparison succeeds against a non-empty
target: the empty string never lowercases to such a target. -/
theorem envGuard_eq (c target : String)
    (h0 : (jsToLower "" == target) = false) :
    ((c != "") && (jsToLower c == target)) = (jsToLower c == target) := by
  cases hm : (jsToLower c == target) with
  | false => simp [hm]
  | true =>
    have hc : c ≠ "" := by
      intro hEq
      rw [hEq] at hm
      rw [hm] at h0
      exact Bool.noConfusion h0
    simp [hm, hc]

/-- Strings with the same lowercase image pass the env-var guard of a
probe identically. -/
theorem envGuard_congr (c c' target : String)
    (hcc : jsToLower c = jsToLower c')
    (h0 : (jsToLower "" == target) = false) :
    ((c != "") && (jsToLower c == target)) =
      ((c' != "") && (jsToLower c' == target)) := by
  rw [envGuard_eq c target h0, envGuard_eq c' target h0, hcc]

/-- Counterexample for C7: the containerd probe compares the `container`
environment variable exactly, not case-insensitively — `"Containerd"`
differs from the target `"containerd"` only in letter case yet makes the
probe resolve false where the exact-case value makes it resolve true. -/
theorem containerd_match_case_sensitive :
    detectContainerd (withContainerVar envBase "containerd") = .ok true
      ∧ detectContainerd (withContainerVar envBase "Containerd") = .ok false
      ∧ jsToLower "Containerd" = jsToLower "containerd" := by
  decide

/-- C7 (amended): the Podman, CRI-O and systemd-nspawn probes match the
`container` environment variable case-insensitively, and the Podman and
CRI-O probes match the metadata-file contents case-insensitively (values
with the same lowercase image give the same probe result); the
Docker-cgroup, containerd, rkt and LXC/LXD probes instead compare the
variable exactly, case-sensitively. -/
theorem probe_case_matching (e : Env) (c c' t t' : String)
    (hc : jsToLower c = jsToLower c') (ht : jsToLower t = jsToLower t') :
    detectPodman (withContainerVar e c) = detectPodman (withContainerVar e c')
      ∧ detectCrio (withContainerVar e c) = detectCrio (withContainerVar e c')
      ∧ detectSystemdNspawn (withContainerVar e c) =
          detectSystemdNspawn (withContainerVar e c')
      ∧ detectPodman (withContainerenvText e t) =
          detectPodman (withContainerenvText e t')
      ∧ detectCrio (withContainerenvText e t) =
          detectCrio (withContainerenvText e t')
      ∧ detectDockerCgroup (withContainerVar e c) = .ok (c == "docker")
      ∧ detectContainerd (withContainerVar e c) = .ok (c == "containerd")
      ∧ detectRkt (withContainerVar e c) = .ok (c == "rkt")
      ∧ detectLXC (withContainerVar e c) = .ok (c == "lxc") := by
  refine ⟨?_, ?_, ?_, ?_, ?_, ?_, ?_, ?_, ?_⟩
  · simp only [detectPodman, withContainerVar]
    rw [envGuard_congr c c' "podman" hc (by decide)]
  · simp only [detectCrio, withContainerVar]
    rw [envGuard_congr c c' "crio" hc (by decide)]
  · simp only [detectSystemdNspawn, withContainerVar]
    rw [envGuard_congr c c' "systemd-nspawn" hc (by decide)]
  · cases he : e.containerVar with
    | error m => simp [detectPodman, withContainerenvText, he]
    | ok cv => simp [detectPodman, withContainerenvText, he, ht]
  · cases he : e.containerVar with
    | error m => simp [detectCrio, withContainerenvText, he]
    | ok cv => simp [detectCrio, withContainerenvText, he, ht]
  · rfl
  · rfl
  · rfl
  · rfl

/-- Witness for C7 (amended): `"PODMAN"` and `"podman"` drive the Podman
probe identically, both through the env var and through the metadata-file
contents. -/
theorem probe_case_matching_witness :
    jsToLower "PODMAN" = jsToLower "podman"
      ∧ jsToLower "Has Podman" = jsToLower "has podman"
      ∧ detectPodman (withContainerVar envBase "PODMAN") =
          detectPodman (withContainerVar envBase "podman")
      ∧ detectPodman (withContainerenvText envBase "Has Podman") =
          detectPodman (withContainerenvText envBase "has podman") := by
  have h := probe_case_matching envBase "PODMAN" "podman"
    "Has Podman" "has podman" (by decide) (by decide)
  exact ⟨by decide, by decide, h.1, h.2.2.2.1⟩

/-- Counterexample for C6: the env-var reads sit outside every try/catch
in src/detection/utils.ts, so a probe invoked directly propagates an
environment-variable read error to its caller instead of resolving false. -/
theorem env_error_propagates :
    detectDockerCgroup envEnvDenied =
        .error "NotCapable: env access to container"
      ∧ detectKubernetes envEnvDenied =
        .error "NotCapable: env access to KUBERNETES_SERVICE_HOST" := by
  decide

/-- C6 (amended): provided the environment-variable reads succeed, every
probe function returns a boolean and never propagates an error; every
failure of the guarded evidence operations (file existence checks, file
content read, DNS resolution) is treated as absent evidence, so with all
of them throwing each probe still resolves to exactly the value its
environment-variable evidence determines.  (Errors of the env-var reads
themselves are not caught — see the counterexample.) -/
theorem probes_isolate_evidence_errors (e : Env) (k c : Option String)
    (m : String)
    (hk : e.kubernetesServiceHost = .ok k) (hc : e.containerVar = .ok c) :
    (detectKubernetes e).isOk = true
      ∧ (detectDockerEnv e).isOk = true
      ∧ (detectDockerCgroup e).isOk = true
      ∧ (detectPodman e).isOk = true
      ∧ (detectCrio e).isOk = true
      ∧ (detectContainerd e).isOk = true
      ∧ (detectRkt e).isOk = true
      ∧ (detectLXC e).isOk = true
      ∧ (detectSystemdNspawn e).isOk = true
      ∧ detectKubernetes (withEvidenceErrors e m) =
        .ok (match k with | some s => decide (s.length > 0) | none => false)
      ∧ detectDockerEnv (withEvidenceErrors e m) = .ok false
      ∧ detectDockerCgroup (withEvidenceErrors e m) = .ok (c == some "docker")
      ∧ detectPodman (withEvidenceErrors e m) =
        .ok (match c with
          | some s => (s != "") && (jsToLower s == "podman")
          | none => false)
      ∧ detectCrio (withEvidenceErrors e m) =
        .ok (match c with
          | some s => (s != "") && (jsToLower s == "crio")
          | none => false)
      ∧ detectContainerd (withEvidenceErrors e m) = .ok (c == some "containerd")
      ∧ detectRkt (withEvidenceErrors e m) = .ok (c == some "rkt")
      ∧ detectLXC (withEvidenceErrors e m) = .ok (c == some "lxc")
      ∧ detectSystemdNspawn (withEvidenceErrors e m) =
        .ok (match c with
          | some s => (s != "") && (jsToLower s == "systemd-nspawn")
          | none => false) := by
  refine ⟨?_, rfl, ?_, ?_, ?_, ?_, ?_, ?_, ?_, ?_, rfl, ?_, ?_, ?_, ?_, ?_, ?_, ?_⟩
  · simp only [detectKubernetes, hk]
    split
    · rfl
    · split <;> rfl
  · simp only [detectDockerCgroup, hc]
    rfl
  · simp only [detectPodman, hc]
    split <;> rfl
  · simp only [detectCrio, hc]
    split <;> rfl
  · simp only [detectContainerd, hc]
    rfl
  · simp only [detectRkt, hc]
    rfl
  · simp only [detectLXC, hc]
    rfl
  · simp only [detectSystemdNspawn, hc]
    split <;> rfl
  · rcases k with _ | s
    · simp only [detectKubernetes, withEvidenceErrors, hk]
      rfl
    · simp only [detectKubernetes, withEvidenceErrors, hk]
      split <;> simp_all
  · simp only [detectDockerCgroup, withEvidenceErrors, hc]
  · rcases c with _ | s
    · simp only [detectPodman, withEvidenceErrors, hc]
      rfl
    · simp only [detectPodman, withEvidenceErrors, hc]
      split <;> simp_all
  · rcases c with _ | s
    · simp only [detectCrio, withEvidenceErrors, hc]
      rfl
    · simp only [detectCrio, withEvidenceErrors, hc]
      split <;> simp_all
  · simp only [detectContainerd, withEvidenceErrors, hc]
  · simp only [detectRkt, withEvidenceErrors, hc]
  · simp only [detectLXC, withEvidenceErrors, hc]
  · rcases c with _ | s
    · simp only [detectSystemdNspawn, withEvidenceErrors, hc]
      rfl
    · simp only [detectSystemdNspawn, withEvidenceErrors, hc]
      split <;> simp_all

/-- Witness for C6 (amended): with `container=docker` set and every
guarded evidence operation throwing, the Kubernetes probe returns a
boolean and the Docker-cgroup probe resolves true. -/
theorem probes_isolate_evidence_errors_witness :
    (detectKubernetes (withContainerVar envBase "docker")).isOk = true
      ∧ detectDockerCgroup
          (withEvidenceErrors (withContainerVar envBase "docker") "EACCES") =
        .ok true := by
  have h := probes_isolate_evidence_errors (withContainerVar envBase "docker")
    none (some "docker") "EACCES" rfl rfl
  exact ⟨h.1, (h.2.2.2.2.2.2.2.2.2.2.2.1).trans (by decide)⟩

/-- Counterexample for C8: the `Docker` and `DockerCgroup` entries of the
types.ts table share the pair `(Standalone, Docker)` yet carry different
display names, so `displayName` is not a function of `(category, runtime)`. -/
theorem displayname_not_pair_function :
    ("Docker",
        (⟨Types.PlatformType.Standalone, Types.Runtime.Docker,
          "Docker"⟩ : Types.ContainerPlatform)) ∈ Types.ContainerPlatforms
      ∧ ("DockerCgroup",
        (⟨Types.PlatformType.Standalone, Types.Runtime.Docker,
          "Docker (via cgroup)"⟩ : Types.ContainerPlatform)) ∈
          Types.ContainerPlatforms
      ∧ ("Docker" : String) ≠ "Docker (via cgroup)" := by
  decide

/-- C8 (amended): any two entries of the platform table with the same
`(category, runtime)` pair have the same display name, except for the
single pair `(Standalone, Docker)`, which the table lists twice — as the
primary `"Docker"` entry and as the cgroup variant `"Docker (via cgroup)"`. -/
theorem displayname_same_pair_unless_docker
    (p q : String × Types.ContainerPlatform)
    (hp : p ∈ Types.ContainerPlatforms) (hq : q ∈ Types.ContainerPlatforms)
    (ht : p.2.type = q.2.type) (hr : p.2.runtime = q.2.runtime) :
    p.2.displayName = q.2.displayName
      ∨ (p.2.type = Types.PlatformType.Standalone
          ∧ p.2.runtime = Types.Runtime.Docker) := by
  have H : ∀ a ∈ Types.ContainerPlatforms, ∀ b ∈ Types.ContainerPlatforms,
      a.2.type = b.2.type → a.2.runtime = b.2.runtime →
      (a.2.displayName = b.2.displayName
        ∨ (a.2.type = Types.PlatformType.Standalone
            ∧ a.2.runtime = Types.Runtime.Docker)) := by
    decide
  exact H p hp q hq ht hr

/-- Witness for C8 (amended): applied to the two Docker entries, whose
shared pair falls under the `(Standalone, Docker)` exception. -/
theorem displayname_same_pair_unless_docker_witness :
    ("Docker" : String) = "Docker (via cgroup)"
      ∨ (Types.PlatformType.Standalone = Types.PlatformType.Standalone
          ∧ Types.Runtime.Docker = Types.Runtime.Docker) :=
  displayname_same_pair_unless_docker
    ("Docker", ⟨Types.PlatformType.Standalone, Types.Runtime.Docker, "Docker"⟩)
    ("DockerCgroup",
      ⟨Types.PlatformType.Standalone, Types.Runtime.Docker,
        "Docker (via cgroup)"⟩)
    (by decide) (by decide) rfl rfl
